import Mathlib

/-!
Verification development for the timezone-translate repository.

The embedding covers the two core components:
* the Timezone Identifier (src/content/timezone-data.js): the static alias
  table, the longest-first word-bounded case-insensitive scan, and the
  short-lowercase false-positive filter;
* the Wall-Clock Resolver (src/shared/parser.js): component defaulting and
  meridiem correction, the estimate-then-correct civil-time-to-instant
  conversion, rendering in a target zone, and display formatting.

Strings are modelled as Lean strings / lists of characters; instants are
modelled as integer seconds since the Unix epoch (JS uses milliseconds; all
quantities in this code are whole seconds).  The host's timezone-rule
database (Intl) is not part of the repository; where a concrete zone's
offset rule is needed it is modelled from the spec (see the definitions
marked "Modelled from the spec").
-/

set_option maxHeartbeats 1000000

namespace TimezoneTranslate

/-! ### Timezone Identifier: static alias table (src/content/timezone-data.js) -/

/-- The alias table of src/content/timezone-data.js: surface form to IANA
zone identifier, in source order. -/
def TIMEZONE_MAP : List (String × String) := [
  ("Eastern Standard Time", "America/New_York"),
  ("Eastern Daylight Time", "America/New_York"),
  ("Eastern Time", "America/New_York"),
  ("Eastern", "America/New_York"),
  ("EST", "America/New_York"),
  ("EDT", "America/New_York"),
  ("ET", "America/New_York"),
  ("Central Standard Time", "America/Chicago"),
  ("Central Daylight Time", "America/Chicago"),
  ("Central Time", "America/Chicago"),
  ("Central", "America/Chicago"),
  ("CST", "America/Chicago"),
  ("CDT", "America/Chicago"),
  ("CT", "America/Chicago"),
  ("Mountain Standard Time", "America/Denver"),
  ("Mountain Daylight Time", "America/Denver"),
  ("Mountain Time", "America/Denver"),
  ("Mountain", "America/Denver"),
  ("MST", "America/Denver"),
  ("MDT", "America/Denver"),
  ("MT", "America/Denver"),
  ("Pacific Standard Time", "America/Los_Angeles"),
  ("Pacific Daylight Time", "America/Los_Angeles"),
  ("Pacific Time", "America/Los_Angeles"),
  ("Pacific", "America/Los_Angeles"),
  ("PST", "America/Los_Angeles"),
  ("PDT", "America/Los_Angeles"),
  ("PT", "America/Los_Angeles"),
  ("Alaska Standard Time", "America/Anchorage"),
  ("Alaska Daylight Time", "America/Anchorage"),
  ("Alaska Time", "America/Anchorage"),
  ("Alaska", "America/Anchorage"),
  ("AKST", "America/Anchorage"),
  ("AKDT", "America/Anchorage"),
  ("AKT", "America/Anchorage"),
  ("Hawaii Standard Time", "Pacific/Honolulu"),
  ("Hawaii Time", "Pacific/Honolulu"),
  ("Hawaii", "Pacific/Honolulu"),
  ("HST", "Pacific/Honolulu"),
  ("HT", "Pacific/Honolulu"),
  ("Atlantic Standard Time", "America/Halifax"),
  ("Atlantic Daylight Time", "America/Halifax"),
  ("Atlantic Time", "America/Halifax"),
  ("Atlantic", "America/Halifax"),
  ("AST", "America/Halifax"),
  ("ADT", "America/Halifax"),
  ("AT", "America/Halifax"),
  ("UTC", "UTC"),
  ("GMT", "GMT"),
  ("Central European Summer Time", "Europe/Paris"),
  ("Central European Time", "Europe/Paris"),
  ("CEST", "Europe/Paris"),
  ("CET", "Europe/Paris"),
  ("British Summer Time", "Europe/London"),
  ("British", "Europe/London"),
  ("BST", "Europe/London"),
  ("Western European Summer Time", "Europe/Lisbon"),
  ("Western European Time", "Europe/Lisbon"),
  ("WEST", "Europe/Lisbon"),
  ("WET", "Europe/Lisbon"),
  ("Eastern European Summer Time", "Europe/Helsinki"),
  ("Eastern European Time", "Europe/Helsinki"),
  ("EEST", "Europe/Helsinki"),
  ("EET", "Europe/Helsinki"),
  ("IST", "Asia/Kolkata"),
  ("India", "Asia/Kolkata"),
  ("Indian Standard Time", "Asia/Kolkata"),
  ("JST", "Asia/Tokyo"),
  ("Japan", "Asia/Tokyo"),
  ("Japan Standard Time", "Asia/Tokyo"),
  ("KST", "Asia/Seoul"),
  ("Korea", "Asia/Seoul"),
  ("Korea Standard Time", "Asia/Seoul"),
  ("CST+8", "Asia/Shanghai"),
  ("China", "Asia/Shanghai"),
  ("China Standard Time", "Asia/Shanghai"),
  ("SGT", "Asia/Singapore"),
  ("Singapore", "Asia/Singapore"),
  ("Singapore Time", "Asia/Singapore"),
  ("HKT", "Asia/Hong_Kong"),
  ("Hong Kong", "Asia/Hong_Kong"),
  ("ICT", "Asia/Bangkok"),
  ("Indochina", "Asia/Bangkok"),
  ("PKT", "Asia/Karachi"),
  ("Pakistan", "Asia/Karachi"),
  ("AEST", "Australia/Sydney"),
  ("AEDT", "Australia/Sydney"),
  ("Australian Eastern Time", "Australia/Sydney"),
  ("Australian Eastern Standard Time", "Australia/Sydney"),
  ("Australian Eastern Daylight Time", "Australia/Sydney"),
  ("ACST", "Australia/Adelaide"),
  ("ACDT", "Australia/Adelaide"),
  ("Australian Central Time", "Australia/Adelaide"),
  ("AWST", "Australia/Perth"),
  ("Australian Western Time", "Australia/Perth"),
  ("Australian Western Standard Time", "Australia/Perth"),
  ("NZST", "Pacific/Auckland"),
  ("NZDT", "Pacific/Auckland"),
  ("New Zealand", "Pacific/Auckland"),
  ("New Zealand Standard Time", "Pacific/Auckland"),
  ("New Zealand Daylight Time", "Pacific/Auckland"),
  ("BRT", "America/Sao_Paulo"),
  ("Brazil", "America/Sao_Paulo"),
  ("Brasilia", "America/Sao_Paulo"),
  ("ART", "America/Argentina/Buenos_Aires"),
  ("Argentina", "America/Argentina/Buenos_Aires")
]

/-- Insert a key into a list that is sorted by length, descending: the key
goes after every strictly longer entry.  Used to model the source's
`sort((a, b) => b.length - a.length)`. -/
def insertByLen (k : String) : List String → List String
  | [] => [k]
  | x :: xs => if k.length < x.length then x :: insertByLen k xs else k :: x :: xs

/-- Sort a list of keys by length, descending (stable; JS Array sort is
stable, and only the length order is observable here since no two distinct
keys agree up to case). -/
def sortByLenDesc (l : List String) : List String := l.foldr insertByLen []

/-- SORTED_KEYS of the source: all alias surface forms, longest first. -/
def SORTED_KEYS : List String := sortByLenDesc (TIMEZONE_MAP.map (fun e => e.1))

/-- JS regex word character class: ASCII letters, digits, underscore. -/
def isWordChar (c : Char) : Bool := c.isAlpha || c.isDigit || c == '_'

/-- Whether the character at index i of the text is a word character
(out-of-range counts as non-word, as at the ends of a JS string). -/
def wordAt (t : List Char) (i : Nat) : Bool := (t[i]?).any isWordChar

/-- Whether the character just before index p is a word character
(false at the start of the text). -/
def prevIsWord (t : List Char) : Nat → Bool
  | 0 => false
  | q + 1 => wordAt t q

/-- JS regex word-boundary assertion at position p: the word-ness of
the characters on the two sides of the position differs. -/
def boundaryAt (t : List Char) (p : Nat) : Bool := prevIsWord t p != wordAt t p

/-- Case-insensitive character-by-character comparison of a key against the
text starting at position p, modelling the regex i flag on the table's
ASCII surface forms. -/
def charsMatchAt : List Char → List Char → Nat → Bool
  | [], _, _ => true
  | kc :: ks, t, p =>
    match t[p]? with
    | some c => (c.toLower == kc.toLower) && charsMatchAt ks t (p + 1)
    | none => false

/-- One alternative of TIMEZONE_REGEX: the escaped key between two
word-boundary assertions, matched at position p of the text. -/
def matchesAt (k t : List Char) (p : Nat) : Bool :=
  boundaryAt t p && charsMatchAt k t p && boundaryAt t (p + k.length)

/-- The alternation of TIMEZONE_REGEX at one position: the first key of
SORTED_KEYS (longest first) whose alternative matches there, if any. -/
def matchKeyAt (t : List Char) (p : Nat) : Option String :=
  SORTED_KEYS.find? (fun k => matchesAt k.toList t p)

/-- isFalsePositive of the source: a raw match of at most five characters
with no internal space that is not written entirely in uppercase. -/
def isFalsePositive (raw : List Char) : Bool :=
  (decide (raw.length ≤ 5) && !raw.contains ' ') && raw != raw.map Char.toUpper

/-- The lookup predicate of detectTimezone's inner loop:
`key.toLowerCase() === raw.toLowerCase()`. -/
def lcEq (key : String) (raw : List Char) : Bool :=
  key.toList.map Char.toLower == raw.map Char.toLower

/-- The exec loop of detectTimezone.  `p` is the regex lastIndex; `fuel`
bounds the number of iterations (each iteration advances p by at least one,
so `t.length + 1` iterations always suffice).  A regex match at p yields the
raw matched slice of the text; false positives are skipped with lastIndex
advanced past the match; otherwise the raw match is looked up
case-insensitively among the keys and the mapped zone is returned.  (The
map lookup cannot miss, since the matched key comes from the map; a JS
`undefined` result is collapsed to `none`.) -/
def scanAux (t : List Char) : Nat → Nat → Option String
  | 0, _ => none
  | fuel + 1, p =>
    match matchKeyAt t p with
    | none => scanAux t fuel (p + 1)
    | some k =>
      let raw := (t.drop p).take k.length
      if isFalsePositive raw then scanAux t fuel (p + k.length)
      else
        match SORTED_KEYS.find? (fun key => lcEq key raw) with
        | some key => (TIMEZONE_MAP.find? (fun e => e.1 == key)).map (fun e => e.2)
        | none => scanAux t fuel (p + k.length)

/-- detectTimezone of the source: scan the text for the first accepted
alias match and return its canonical zone, or none. -/
def detectTimezone (s : String) : Option String :=
  scanAux s.toList (s.length + 1) 0

/-! ### Wall-Clock Resolver: data model (src/shared/parser.js) -/

/-- A ZonelessDateTime: wall-clock calendar fields with no attached zone
(month is 1-based, hour is 0..23 for in-range values). -/
structure ZDT where
  year : Int
  month : Int
  day : Int
  hour : Int
  minute : Int
  second : Int
deriving DecidableEq, Repr

/-- Days since the Unix epoch of a proleptic Gregorian calendar date
(the civil-from-fields direction of the host Date arithmetic). -/
def daysFromCivil (y m d : Int) : Int :=
  let yA := if m ≤ 2 then y - 1 else y
  let era := yA.fdiv 400
  let yoe := yA - era * 400
  let doy := (153 * (if 2 < m then m - 3 else m + 9) + 2).fdiv 5 + d - 1
  let doe := yoe * 365 + yoe.fdiv 4 - yoe.fdiv 100 + doy
  era * 146097 + doe - 719468

/-- Calendar date (year, month, day) of a count of days since the Unix
epoch (the fields-from-civil direction of the host Date arithmetic). -/
def civilFromDays (z : Int) : Int × Int × Int :=
  let zz := z + 719468
  let era := zz.fdiv 146097
  let doe := zz - era * 146097
  let yoe := (doe - doe.fdiv 1460 + doe.fdiv 36524 - doe.fdiv 146096).fdiv 365
  let yy := yoe + era * 400
  let doy := doe - (365 * yoe + yoe.fdiv 4 - yoe.fdiv 100)
  let mp := (5 * doy + 2).fdiv 153
  let dd := doy - (153 * mp + 2).fdiv 5 + 1
  let mm := if mp < 10 then mp + 3 else mp - 9
  (if mm ≤ 2 then yy + 1 else yy, mm, dd)

/-- Seconds since the Unix epoch of a ZonelessDateTime read as UTC.  This
is the first-pass estimate of wallClockToUTC (the source builds an ISO
string from the fields and parses it with a trailing Z). -/
def toSeconds (dt : ZDT) : Int :=
  daysFromCivil dt.year dt.month dt.day * 86400
    + dt.hour * 3600 + dt.minute * 60 + dt.second

/-- The ZonelessDateTime obtained by reading an epoch-seconds instant as
UTC calendar fields. -/
def fromSeconds (t : Int) : ZDT :=
  let days := t.fdiv 86400
  let rem := t - days * 86400
  let c := civilFromDays days
  ⟨c.1, c.2.1, c.2.2, rem.fdiv 3600, (rem.fdiv 60).fmod 60, rem.fmod 60⟩

/-! ### Wall-Clock Resolver: conversion core (src/shared/parser.js)

An offset rule (what getUtcOffset computes through the host's Intl
database) is a function from a UTC instant in epoch seconds to the zone's
UTC offset in minutes at that instant (positive = ahead of UTC). -/

/-- wallClockToUTC of the source, with the zone's offset rule abstracted:
estimate the instant by reading the fields as UTC, look up the offset the
zone observes at that estimate, and shift backward by that offset. -/
def wallClockToUTC (offs : Int → Int) (dt : ZDT) : Int :=
  toSeconds dt - 60 * offs (toSeconds dt)

/-- Rendering an instant's civil time in a zone (what the source's
Intl.DateTimeFormat with a timeZone option computes): shift by the zone's
offset at that instant and read the result as calendar fields. -/
def renderInZone (offs : Int → Int) (t : Int) : ZDT :=
  fromSeconds (t + 60 * offs t)

/-! ### Wall-Clock Resolver: component defaulting (componentsToWallClock) -/

/-- Raw parsed components as delivered by the expression extractor
(chrono-node): every field optional; meridiem is 0 for AM, 1 for PM. -/
structure Components where
  year : Option Int := none
  month : Option Int := none
  day : Option Int := none
  hour : Option Int := none
  minute : Option Int := none
  second : Option Int := none
  meridiem : Option Int := none
deriving DecidableEq, Repr

/-- The local calendar date of the reference instant (what the source
reads off `ref ?? new Date()` with getFullYear/getMonth+1/getDate). -/
structure RefDate where
  year : Int
  month : Int
  day : Int
deriving DecidableEq, Repr

/-- componentsToWallClock of the source: substitute defaults for missing
fields (reference date, noon, zero), then apply the meridiem correction.
The final `new Date(...)` constructor is modelled as the plain field
record; its rollover normalization only differs on out-of-range fields,
which the extractor contract excludes. -/
def componentsToWallClock (c : Components) (ref : RefDate) : ZDT :=
  let year := c.year.getD ref.year
  let month := c.month.getD ref.month
  let day := c.day.getD ref.day
  let hour0 := c.hour.getD 12
  let minute := c.minute.getD 0
  let sec := c.second.getD 0
  let hour1 := if c.meridiem = some 1 ∧ hour0 < 12 then hour0 + 12 else hour0
  let hour2 := if c.meridiem = some 0 ∧ hour1 = 12 then 0 else hour1
  ⟨year, month, day, hour2, minute, sec⟩

/-! ### Text normalization and parseSelectedText (src/shared/parser.js) -/

/-- JS regex whitespace class, restricted to the characters that occur in
the inputs of this program: space, tab, newline, carriage return, vertical
tab, form feed, no-break space. -/
def jsIsSpace (c : Char) : Bool :=
  c == ' ' || c == '\t' || c == '\n' || c == '\r'
    || c.val == 11 || c.val == 12 || c.val == 160

/-- First replace of normalizeForChrono: pipe, em-dash and bullet become
a comma and a space (en-dash is left alone). -/
def replaceSeps : List Char → List Char
  | [] => []
  | c :: rest =>
    (if c == '|' || c == '—' || c == '•' then [',', ' '] else [c]) ++ replaceSeps rest

/-- Second replace of normalizeForChrono: a comma, optional whitespace and
a comma collapse to a single comma; scanning resumes after the match, as
with a global JS regex replace. -/
def collapseCommas (l : List Char) : List Char :=
  match l with
  | [] => []
  | c :: rest =>
    if c == ',' then
      match _h : rest.dropWhile jsIsSpace with
      | ',' :: tail => ',' :: collapseCommas tail
      | _ => c :: collapseCommas rest
    else c :: collapseCommas rest
termination_by l.length
decreasing_by
  · have h1 : (rest.dropWhile jsIsSpace).length ≤ rest.length :=
      (List.dropWhile_sublist jsIsSpace).length_le
    simp_all
    omega
  · simp
  · simp

/-- Third replace of normalizeForChrono: a run of two or more whitespace
characters collapses to a single space (a lone whitespace character is
kept as is). -/
def collapseSpaces (l : List Char) : List Char :=
  match l with
  | [] => []
  | c :: rest =>
    if jsIsSpace c && rest.head?.any jsIsSpace then
      ' ' :: collapseSpaces (rest.dropWhile jsIsSpace)
    else
      c :: collapseSpaces rest
termination_by l.length
decreasing_by
  · have h1 : (rest.dropWhile jsIsSpace).length ≤ rest.length :=
      (List.dropWhile_sublist jsIsSpace).length_le
    simp
    omega
  · simp

/-- JS String.prototype.trim on the whitespace model. -/
def trimJs (l : List Char) : List Char :=
  ((l.dropWhile jsIsSpace).reverse.dropWhile jsIsSpace).reverse

/-- normalizeForChrono of the source. -/
def normalizeForChrono (s : String) : String :=
  ⟨trimJs (collapseSpaces (collapseCommas (replaceSeps s.toList)))⟩

/-- One match of the expression extractor: raw start components and, for a
range, raw end components (chrono's `result.end`, here `stop`). -/
structure ChronoResult where
  start : Components
  stop : Option Components
deriving DecidableEq, Repr

/-- A ParsedMoment: start and optional end wall-clock values, plus the
range flag (`end` of the source is `stop` here). -/
structure ParsedMoment where
  start : ZDT
  stop : Option ZDT
  hasRange : Bool
deriving DecidableEq, Repr

/-- parseSelectedText of the source, with the expression extractor
(chrono.parse at the given reference) abstracted as a function from the
normalized text to a list of matches.  Returns none when the extractor
finds nothing; otherwise builds the ParsedMoment from the first match's
raw components. -/
def parseSelectedText (chronoParse : String → List ChronoResult)
    (ref : RefDate) (text : String) : Option ParsedMoment :=
  match chronoParse (normalizeForChrono text) with
  | [] => none
  | r :: _ =>
    let st := componentsToWallClock r.start ref
    let en := r.stop.map (fun c => componentsToWallClock c ref)
    some ⟨st, en, en.isSome⟩

/-! ### Zone database model and the fallible conversion pipeline

The host's Intl zone database is not part of the repository; it is
modelled as a lookup table from zone identifiers to an offset rule and a
long display name, per the spec's calendar/zone rules provider interface.
An identifier absent from the table raises UnknownZone, modelling the
RangeError the host throws for an invalid timeZone option. -/

/-- A zone's rules: UTC offset in minutes and long display name, both as
functions of the UTC instant (so daylight-saving state is respected). -/
structure ZoneInfo where
  offs : Int → Int
  longName : Int → String

/-- Conversion errors surfaced to the caller. -/
inductive ConvError where
  | unknownZone (tz : String)
deriving DecidableEq, Repr

/-- A zone database: zone identifier to ZoneInfo. -/
abbrev ZoneDB := List (String × ZoneInfo)

/-- Look a zone identifier up in the database. -/
def lookupZone (db : ZoneDB) (tz : String) : Option ZoneInfo :=
  (db.find? (fun e => e.1 == tz)).map (fun e => e.2)

/-- getUtcOffset of the source against the modelled database: the offset
in minutes of the zone at the given UTC instant, or UnknownZone. -/
def getUtcOffsetE (db : ZoneDB) (t : Int) (tz : String) : Except ConvError Int :=
  match lookupZone db tz with
  | some zi => .ok (zi.offs t)
  | none => .error (.unknownZone tz)

/-- wallClockToUTC of the source against the modelled database. -/
def wallClockToUTCE (db : ZoneDB) (dt : ZDT) (fromTZ : String) :
    Except ConvError Int := do
  let offset ← getUtcOffsetE db (toSeconds dt) fromTZ
  return toSeconds dt - 60 * offset

/-- Rendering an instant in a target zone against the modelled database
(contract B of the spec). -/
def renderInZoneE (db : ZoneDB) (t : Int) (tz : String) : Except ConvError ZDT :=
  match lookupZone db tz with
  | some zi => .ok (renderInZone zi.offs t)
  | none => .error (.unknownZone tz)

/-! ### Display formatting (the Intl en-US patterns used by convertParsed) -/

/-- Two-digit rendering of a minute value. -/
def pad2 (n : Int) : String := if n < 10 then "0" ++ toString n else toString n

/-- The 12-hour clock hour shown for a 24-hour value (en-US numeric hour:
0 shows as 12, 13 shows as 1). -/
def hour12 (h : Int) : Int :=
  let r := h.fmod 12
  if r = 0 then 12 else r

/-- The AM/PM marker for a 24-hour value. -/
def meridiemStr (h : Int) : String := if h < 12 then "AM" else "PM"

/-- The en-US time pattern of convertParsed: numeric hour, two-digit
minute, AM/PM. -/
def formatTimeHM (dt : ZDT) : String :=
  toString (hour12 dt.hour) ++ ":" ++ pad2 dt.minute ++ " " ++ meridiemStr dt.hour

/-- English month name of a 1-based month number. -/
def monthName (m : Int) : String :=
  if m = 1 then "January" else if m = 2 then "February"
  else if m = 3 then "March" else if m = 4 then "April"
  else if m = 5 then "May" else if m = 6 then "June"
  else if m = 7 then "July" else if m = 8 then "August"
  else if m = 9 then "September" else if m = 10 then "October"
  else if m = 11 then "November" else if m = 12 then "December"
  else "Undecimber"

/-- The en-US date pattern of convertParsed: long month, numeric day,
numeric year. -/
def formatDateMDY (dt : ZDT) : String :=
  monthName dt.month ++ " " ++ toString dt.day ++ ", " ++ toString dt.year

/-- The ConvertedMoment assembled by convertParsed. -/
structure ConvertedMoment where
  startUTC : Int
  endUTC : Option Int
  displayDate : String
  displayTime : String
  displayTZ : String
deriving DecidableEq, Repr

/-- convertParsed of the source: resolve start (and end, if present) in
the source zone, then render and format everything in the target zone.
The source-zone resolution happens before any target-zone formatting, so a
bad source zone surfaces first, as in the source. -/
def convertParsed (db : ZoneDB) (p : ParsedMoment) (fromTZ toTZ : String) :
    Except ConvError ConvertedMoment := do
  let startUTC ← wallClockToUTCE db p.start fromTZ
  let endUTC ← match p.stop with
    | some e => Except.map some (wallClockToUTCE db e fromTZ)
    | none => pure none
  let toInfo ← match lookupZone db toTZ with
    | some zi => Except.ok zi
    | none => Except.error (ConvError.unknownZone toTZ)
  let startCivil := renderInZone toInfo.offs startUTC
  let startTimeStr := formatTimeHM startCivil
  let displayTime := match endUTC with
    | some e => startTimeStr ++ " – " ++ formatTimeHM (renderInZone toInfo.offs e)
    | none => startTimeStr
  return ⟨startUTC, endUTC, formatDateMDY startCivil, displayTime,
    toInfo.longName startUTC⟩

/-- What the dialog's result box shows: date line, time line, zone line. -/
structure ResultView where
  date : String
  time : String
  tzLabel : String
deriving DecidableEq, Repr

/-- The message attached to an UnknownZone failure (the host's RangeError
message; exact wording is host-specific). -/
def errMessage : ConvError → String
  | .unknownZone tz => "Invalid time zone specified: " ++ tz

/-- updateResult of the dialog: try the conversion and show its display
strings; on failure show an empty date, the literal text
"Conversion error" and the error's message. -/
def updateResult (db : ZoneDB) (p : ParsedMoment) (fromTZ toTZ : String) :
    ResultView :=
  match convertParsed db p fromTZ toTZ with
  | .ok conv => ⟨conv.displayDate, conv.displayTime, conv.displayTZ⟩
  | .error e => ⟨"", "Conversion error", errMessage e⟩

/-! ### Concrete 2025 zone rules

Modelled from the spec: the calendar/zone rules provider (spec section 6)
for the four zones of the literal fixtures, during 2025.  The repository
delegates these rules to the host's Intl database, which is not part of
the source; the transition instants are the 2025 United States DST rules
(spring forward 2025-03-09 at 07:00/10:00 UTC for the eastern/pacific
zones, fall back 2025-11-02 at 06:00/09:00 UTC), and the spec's
"UTC-5 in February" fixes the eastern standard offset. -/

/-- Modelled from the spec: offset rule of America/New_York for 2025
(minutes; UTC-5 standard, UTC-4 daylight between the 2025 transitions). -/
def nyOffset (t : Int) : Int :=
  if t < 1741503600 then -300 else if t < 1762063200 then -240 else -300

/-- Modelled from the spec: offset rule of America/Los_Angeles for 2025
(minutes; UTC-8 standard, UTC-7 daylight between the 2025 transitions). -/
def laOffset (t : Int) : Int :=
  if t < 1741514400 then -480 else if t < 1762074000 then -420 else -480

/-- Modelled from the spec: the rules-provider database for the zones the
literal fixtures use. -/
def tzdb2025 : ZoneDB := [
  ("UTC", ⟨fun _ => 0, fun _ => "Coordinated Universal Time"⟩),
  ("GMT", ⟨fun _ => 0, fun _ => "Greenwich Mean Time"⟩),
  ("America/New_York",
    ⟨nyOffset, fun t =>
      if nyOffset t = -240 then "Eastern Daylight Time" else "Eastern Standard Time"⟩),
  ("America/Los_Angeles",
    ⟨laOffset, fun t =>
      if laOffset t = -420 then "Pacific Daylight Time" else "Pacific Standard Time"⟩)
]

/-! ### Helper lemmas -/

/-- SORTED_KEYS is ordered by length, descending. -/
theorem sortedKeys_pairwise :
    SORTED_KEYS.Pairwise (fun a b => b.length ≤ a.length) := by decide

/-- In a list ordered by length descending, the first entry satisfying a
predicate is at least as long as every entry satisfying it. -/
theorem find?_length_le_of_pairwise {l : List String} {q : String → Bool} {k : String}
    (hp : l.Pairwise (fun a b => b.length ≤ a.length))
    (hf : l.find? q = some k) :
    ∀ x ∈ l, q x = true → x.length ≤ k.length := by
  induction l with
  | nil => simp at hf
  | cons a as ih =>
    rw [List.pairwise_cons] at hp
    by_cases ha : q a = true
    · rw [List.find?_cons_of_pos _ ha] at hf
      have hk : a = k := by injection hf
      subst hk
      intro x hx hqx
      rcases List.mem_cons.mp hx with rfl | hxs
      · exact le_refl _
      · exact hp.1 x hxs
    · rw [List.find?_cons_of_neg _ ha] at hf
      intro x hx hqx
      rcases List.mem_cons.mp hx with rfl | hxs
      · exact absurd hqx ha
      · exact ih hp.2 hf x hxs hqx

/-- Every zone the scan loop can return is a value of the alias table. -/
theorem scanAux_mem_map (t : List Char) :
    ∀ fuel p, scanAux t fuel p = none ∨
      ∃ e ∈ TIMEZONE_MAP, scanAux t fuel p = some e.2 := by
  intro fuel
  induction fuel with
  | zero => intro p; left; rfl
  | succ n ih =>
    intro p
    cases hm : matchKeyAt t p with
    | none =>
      have he : scanAux t (n + 1) p = scanAux t n (p + 1) := by
        simp [scanAux, hm]
      rw [he]; exact ih (p + 1)
    | some k =>
      by_cases hfp : isFalsePositive ((t.drop p).take k.length) = true
      · have he : scanAux t (n + 1) p = scanAux t n (p + k.length) := by
          simp [scanAux, hm, hfp]
        rw [he]; exact ih _
      · cases hl : SORTED_KEYS.find? (fun key => lcEq key ((t.drop p).take k.length)) with
        | none =>
          have he : scanAux t (n + 1) p = scanAux t n (p + k.length) := by
            simp [scanAux, hm, hfp, hl]
          rw [he]; exact ih _
        | some key =>
          cases hfind : TIMEZONE_MAP.find? (fun e => e.1 == key) with
          | none =>
            left
            simp [scanAux, hm, hfp, hl, hfind]
          | some e =>
            right
            refine ⟨e, List.mem_of_find?_eq_some hfind, ?_⟩
            simp [scanAux, hm, hfp, hl, hfind]

/-! ### Claims -/

/-- C1 (counterexample): resolving then re-rendering in the same zone does
not always reproduce the calendar fields.  In the modelled
America/New_York rules, the wall clock 2025-03-09 02:30:00 lies in the
spring-forward gap: the round trip renders it as 03:30:00. -/
theorem c1_roundtrip_counterexample :
    (do
      let i ← wallClockToUTCE tzdb2025 ⟨2025, 3, 9, 2, 30, 0⟩ "America/New_York"
      renderInZoneE tzdb2025 i "America/New_York") =
      Except.ok (⟨2025, 3, 9, 3, 30, 0⟩ : ZDT) ∧
    (⟨2025, 3, 9, 3, 30, 0⟩ : ZDT) ≠ (⟨2025, 3, 9, 2, 30, 0⟩ : ZDT) := by
  exact ⟨rfl, by decide⟩

/-- C1 (amended): for canonical calendar fields, the resolve-then-render
round trip in one zone reproduces the fields exactly whenever the zone's
offset at the first-pass estimate equals its offset at the resolved
instant — in particular in every fixed-offset zone, and away from DST
transitions. -/
theorem c1_roundtrip (offs : Int → Int) (dt : ZDT)
    (hcanon : fromSeconds (toSeconds dt) = dt)
    (hoff : offs (wallClockToUTC offs dt) = offs (toSeconds dt)) :
    renderInZone offs (wallClockToUTC offs dt) = dt := by
  unfold renderInZone wallClockToUTC at *
  rw [hoff]
  have h : toSeconds dt - 60 * offs (toSeconds dt) + 60 * offs (toSeconds dt)
      = toSeconds dt := by ring
  rw [h, hcanon]

/-- C1 witness: the round trip at 2025-02-18 09:00:00 America/New_York. -/
theorem c1_roundtrip_witness :
    renderInZone nyOffset (wallClockToUTC nyOffset ⟨2025, 2, 18, 9, 0, 0⟩) =
      ⟨2025, 2, 18, 9, 0, 0⟩ :=
  c1_roundtrip nyOffset _ (by decide) (by decide)

/-- C2: the four literal fixtures of the conversion pipeline display the
expected times. -/
theorem c2_literal_fixtures :
    (convertParsed tzdb2025 ⟨⟨2025, 2, 18, 9, 0, 0⟩, none, false⟩
      "America/New_York" "America/Los_Angeles").toOption.map
        ConvertedMoment.displayTime = some "6:00 AM" ∧
    (convertParsed tzdb2025 ⟨⟨2025, 2, 19, 18, 0, 0⟩, none, false⟩
      "America/New_York" "America/Los_Angeles").toOption.map
        ConvertedMoment.displayTime = some "3:00 PM" ∧
    (convertParsed tzdb2025 ⟨⟨2025, 2, 19, 12, 0, 0⟩, none, false⟩
      "UTC" "America/New_York").toOption.map
        ConvertedMoment.displayTime = some "7:00 AM" ∧
    (convertParsed tzdb2025 ⟨⟨2025, 2, 19, 9, 0, 0⟩, none, false⟩
      "America/Los_Angeles" "GMT").toOption.map
        ConvertedMoment.displayTime = some "5:00 PM" := by
  refine ⟨?_, ?_, ?_, ?_⟩ <;> decide

/-- C3: an unknown source or target zone makes the conversion return an
UnknownZone error (which the dialog shows as "Conversion error"), and a
successful conversion implies both zones were found in the database — no
silent default substitution is possible. -/
theorem c3_unknown_zone_error (db : ZoneDB) (p : ParsedMoment) (z1 z2 : String) :
    (lookupZone db z1 = none →
      convertParsed db p z1 z2 = .error (.unknownZone z1) ∧
      (updateResult db p z1 z2).time = "Conversion error") ∧
    (∀ zi, lookupZone db z1 = some zi → lookupZone db z2 = none →
      convertParsed db p z1 z2 = .error (.unknownZone z2) ∧
      (updateResult db p z1 z2).time = "Conversion error") ∧
    (∀ conv, convertParsed db p z1 z2 = .ok conv →
      (lookupZone db z1).isSome = true ∧ (lookupZone db z2).isSome = true) := by
  have err1 : lookupZone db z1 = none →
      convertParsed db p z1 z2 = .error (.unknownZone z1) := by
    intro hz1
    cases hs : p.stop <;>
      · simp [convertParsed, wallClockToUTCE, getUtcOffsetE, hz1, hs]
        rfl
  have err2 : ∀ zi, lookupZone db z1 = some zi → lookupZone db z2 = none →
      convertParsed db p z1 z2 = .error (.unknownZone z2) := by
    intro zi hz1 hz2
    cases hs : p.stop <;>
      · simp [convertParsed, wallClockToUTCE, getUtcOffsetE, hz1, hz2, hs]
        rfl
  refine ⟨?_, ?_, ?_⟩
  · intro hz1
    exact ⟨err1 hz1, by simp [updateResult, err1 hz1]⟩
  · intro zi hz1 hz2
    exact ⟨err2 zi hz1 hz2, by simp [updateResult, err2 zi hz1 hz2]⟩
  · intro conv hok
    cases hz1 : lookupZone db z1 with
    | none =>
      exfalso
      rw [err1 hz1] at hok
      exact Except.noConfusion hok
    | some zi =>
      cases hz2 : lookupZone db z2 with
      | none =>
        exfalso
        rw [err2 zi hz1 hz2] at hok
        exact Except.noConfusion hok
      | some zj => exact ⟨rfl, rfl⟩

/-- C3 witness: converting from the unknown zone "Mars/Olympus" errors and
the dialog shows "Conversion error". -/
theorem c3_unknown_zone_error_witness :
    convertParsed tzdb2025 ⟨⟨2025, 2, 18, 9, 0, 0⟩, none, false⟩
      "Mars/Olympus" "UTC" = .error (.unknownZone "Mars/Olympus") ∧
    (updateResult tzdb2025 ⟨⟨2025, 2, 18, 9, 0, 0⟩, none, false⟩
      "Mars/Olympus" "UTC").time = "Conversion error" :=
  (c3_unknown_zone_error tzdb2025 _ _ _).1 rfl

/-- C4: a raw candidate match of at most five characters with no internal
space that is not entirely uppercase is classified as a false positive;
the scan loop skips such a match; lowercase "et" mid-sentence yields no
detection while uppercase "ET" detects America/New_York. -/
theorem c4_short_lowercase_rejected :
    (∀ raw : List Char, raw.length ≤ 5 → raw.contains ' ' = false →
      raw ≠ raw.map Char.toUpper → isFalsePositive raw = true) ∧
    (∀ t fuel p k, matchKeyAt t p = some k →
      isFalsePositive ((t.drop p).take k.length) = true →
      scanAux t (fuel + 1) p = scanAux t fuel (p + k.length)) ∧
    detectTimezone "lunch et 5" = none ∧
    detectTimezone "lunch ET 5" = some "America/New_York" := by
  refine ⟨?_, ?_, by decide, by decide⟩
  · intro raw h1 h2 h3
    have h2m : ' ' ∉ raw := by simpa using h2
    simp [isFalsePositive, h1, h2m, bne_iff_ne, h3]
  · intro t fuel p k hm hfp
    simp [scanAux, hm, hfp]

/-- C4 witness: "et" is a false positive and the scan skips the uppercase
key "ET" matched at a lowercase occurrence. -/
theorem c4_short_lowercase_rejected_witness :
    isFalsePositive ['e', 't'] = true ∧
    scanAux "xy et".toList (3 + 1) 3 = scanAux "xy et".toList 3 (3 + "ET".length) :=
  ⟨c4_short_lowercase_rejected.1 ['e', 't'] (by decide) (by decide) (by decide),
   c4_short_lowercase_rejected.2.1 "xy et".toList 3 3 "ET" (by decide) (by decide)⟩

/-- C5: the key selected at a position is at least as long as every key
matching there (SORTED_KEYS is scanned longest first), and the text
"Eastern Standard Time" is matched through the full 21-character phrase
and resolves to America/New_York. -/
theorem c5_longest_match :
    (∀ t p k, matchKeyAt t p = some k →
      ∀ x ∈ SORTED_KEYS, matchesAt x.toList t p = true → x.length ≤ k.length) ∧
    matchKeyAt "Eastern Standard Time".toList 0 = some "Eastern Standard Time" ∧
    detectTimezone "Eastern Standard Time" = some "America/New_York" := by
  refine ⟨?_, by decide, by decide⟩
  intro t p k hm x hx hmx
  exact find?_length_le_of_pairwise sortedKeys_pairwise hm x hx hmx

/-- C5 witness: "Eastern" also matches at the start of
"Eastern Standard Time", so the selected key is at least as long. -/
theorem c5_longest_match_witness :
    ("Eastern" : String).length ≤ ("Eastern Standard Time" : String).length :=
  c5_longest_match.1 "Eastern Standard Time".toList 0 "Eastern Standard Time"
    (by decide) "Eastern" (by decide) (by decide)

/-- C6: meridiem correction — an explicit AM flag with hour component 12
resolves to hour 0 (midnight), and an explicit PM flag with hour component
below 12 resolves to the component plus 12. -/
theorem c6_meridiem_correction (c : Components) (ref : RefDate) :
    (c.meridiem = some 0 → c.hour = some 12 →
      (componentsToWallClock c ref).hour = 0) ∧
    (∀ v : Int, c.meridiem = some 1 → c.hour = some v → v < 12 →
      (componentsToWallClock c ref).hour = v + 12) := by
  constructor
  · intro hm hh
    simp [componentsToWallClock, hm, hh]
  · intro v hm hh hv
    simp [componentsToWallClock, hm, hh, hv]

/-- C6 witness: 12 AM resolves to 0 and 6 PM resolves to 18. -/
theorem c6_meridiem_correction_witness :
    (componentsToWallClock ⟨none, none, none, some 12, none, none, some 0⟩
      ⟨2025, 2, 18⟩).hour = 0 ∧
    (componentsToWallClock ⟨none, none, none, some 6, none, none, some 1⟩
      ⟨2025, 2, 18⟩).hour = 6 + 12 :=
  ⟨(c6_meridiem_correction _ _).1 rfl rfl,
   (c6_meridiem_correction _ _).2 6 rfl rfl (by decide)⟩

/-- C7: a match position whose left neighbour and own character are both
word characters is rejected, as is a match whose last character and right
neighbour are both word characters; consequently "meeting" (which contains
"et" and "eet" only mid-word) detects nothing. -/
theorem c7_word_boundary :
    (∀ k t p, prevIsWord t p = true → wordAt t p = true →
      matchesAt k t p = false) ∧
    (∀ k t p, 0 < k.length → wordAt t (p + k.length - 1) = true →
      wordAt t (p + k.length) = true → matchesAt k t p = false) ∧
    detectTimezone "meeting" = none ∧
    detectTimezone "a meeting at noon" = none := by
  refine ⟨?_, ?_, by decide, by decide⟩
  · intro k t p h1 h2
    simp [matchesAt, boundaryAt, h1, h2]
  · intro k t p hk h1 h2
    have hpl : p + k.length = (p + k.length - 1) + 1 := by omega
    unfold matchesAt boundaryAt
    rw [hpl] at h2 ⊢
    simp [prevIsWord, h1, h2]

/-- C7 witness: "ET" does not match inside "meeting" nor at the start of
"ETC". -/
theorem c7_word_boundary_witness :
    matchesAt ['E', 'T'] "meeting".toList 2 = false ∧
    matchesAt ['E', 'T'] "ETC".toList 0 = false :=
  ⟨c7_word_boundary.1 ['E', 'T'] "meeting".toList 2 (by decide) (by decide),
   c7_word_boundary.2.1 ['E', 'T'] "ETC".toList 0 (by decide) (by decide) (by decide)⟩

/-- C8: when the expression extractor finds no match in the normalized
text, parseSelectedText returns none (and, being a total function, cannot
throw). -/
theorem c8_nomatch_returns_none (f : String → List ChronoResult) (ref : RefDate)
    (text : String) (h : f (normalizeForChrono text) = []) :
    parseSelectedText f ref text = none := by
  simp [parseSelectedText, h]

/-- C8 witness: an extractor that finds nothing yields none on
"hello world". -/
theorem c8_nomatch_returns_none_witness :
    parseSelectedText (fun _ => []) ⟨2025, 2, 18⟩ "hello world" = none :=
  c8_nomatch_returns_none (fun _ => []) ⟨2025, 2, 18⟩ "hello world" rfl

/-- C9 (counterexample): with every component missing and an explicit AM
flag, the defaulted hour 12 is corrected to 0, so the resolved hour of a
missing hour component is not always 12. -/
theorem c9_defaults_counterexample :
    (componentsToWallClock ⟨none, none, none, none, none, none, some 0⟩
      ⟨2025, 2, 18⟩).hour = 0 ∧ (0 : Int) ≠ 12 := by
  exact ⟨rfl, by decide⟩

/-- C9 (amended): missing year, month and day are filled from the
reference date, missing minute and second default to 0, and a missing hour
defaults to 12 (noon) before meridiem correction: the resolved hour is 12
unless an explicit AM flag is present, in which case the defaulted 12 is
corrected to 0 (midnight). -/
theorem c9_default_substitution (c : Components) (ref : RefDate) :
    ((c.year = none → (componentsToWallClock c ref).year = ref.year) ∧
     (c.month = none → (componentsToWallClock c ref).month = ref.month) ∧
     (c.day = none → (componentsToWallClock c ref).day = ref.day)) ∧
    ((c.minute = none → (componentsToWallClock c ref).minute = 0) ∧
     (c.second = none → (componentsToWallClock c ref).second = 0)) ∧
    (c.hour = none → c.meridiem ≠ some 0 →
      (componentsToWallClock c ref).hour = 12) ∧
    (c.hour = none → c.meridiem = some 0 →
      (componentsToWallClock c ref).hour = 0) := by
  refine ⟨⟨?_, ?_, ?_⟩, ⟨?_, ?_⟩, ?_, ?_⟩ <;> intro h
  · simp [componentsToWallClock, h]
  · simp [componentsToWallClock, h]
  · simp [componentsToWallClock, h]
  · simp [componentsToWallClock, h]
  · simp [componentsToWallClock, h]
  · intro hm
    simp [componentsToWallClock, h, hm]
  · intro hm
    simp [componentsToWallClock, h, hm]

/-- C9 witness: with no components at all, the reference date and noon are
used; with an AM flag, the defaulted hour becomes 0. -/
theorem c9_default_substitution_witness :
    (componentsToWallClock ⟨none, none, none, none, none, none, none⟩
      ⟨2025, 2, 18⟩).year = 2025 ∧
    (componentsToWallClock ⟨none, none, none, none, none, none, none⟩
      ⟨2025, 2, 18⟩).hour = 12 ∧
    (componentsToWallClock ⟨none, none, none, none, none, none, some 0⟩
      ⟨2025, 2, 18⟩).hour = 0 :=
  ⟨(c9_default_substitution _ _).1.1 rfl,
   (c9_default_substitution _ _).2.2.1 rfl (by decide),
   (c9_default_substitution _ _).2.2.2 rfl rfl⟩

/-- C10: detectTimezone returns none or the zone value of some entry of
the static alias table — never a string from outside the table.  (The
table itself is a closed Lean definition; nothing in the embedding can
mutate it.) -/
theorem c10_detect_in_table (s : String) :
    detectTimezone s = none ∨ ∃ e ∈ TIMEZONE_MAP, detectTimezone s = some e.2 :=
  scanAux_mem_map s.toList (s.length + 1) 0

end TimezoneTranslate
